import Mathlib

/-!
Verification of `src/extract.py` from the notOS repository.

The script (after its header line pulling in os, shutil and json) is:

  with open('latest_test.json', 'r') as file:
      json_data = [json.loads(line) for line in file]

  test_binary_path = json_data[-2].get("filenames", [None])[0]
  if test_binary_path:
      target_directory = 'target/test'
      os.makedirs(target_directory, exist_ok=True)
      shutil.copy(test_binary_path, os.path.join(target_directory, 'latest_tests'))
  else:
      print("An error has occured. Wrong json format!")

We build a shallow embedding: JSON values are an inductive type, the file
system is an explicit state (a set of directories and a map from paths to
byte contents), reading the input file is an `Option` of a list of per-line
parse results (`json.loads` either fails on a line or returns a value), and
the whole script is a function from the input and the initial file system
to the final file system paired with an observable outcome (normal exit
with the list of printed lines, or an abnormal termination carrying the
kind of uncaught Python exception).
-/

namespace Extract

/-- A parsed JSON value, as produced by `json.loads` on one input line.
Objects keep their key/value pairs in source order. -/
inductive JValue where
  | null : JValue
  | bool : Bool → JValue
  | num : Int → JValue
  | str : String → JValue
  | arr : List JValue → JValue
  | obj : List (String × JValue) → JValue

/-- File contents, as a byte sequence. -/
abbrev Bytes := List Nat

/-- The file-system state seen by the script: the set of existing
directories and a map (association list, first entry wins) from file
paths to their contents. -/
structure FS where
  dirs : List String
  files : List (String × Bytes)
deriving DecidableEq

/-- The kind of uncaught Python exception that terminates the script. -/
inductive PyError where
  | parseError
  | indexError
  | typeError
  | keyError
  | errorOfAttribute
  | fileNotFound
  | fileExists
  | openFailed
deriving DecidableEq

/-- Observable outcome of a run: normal exit (code 0) with the list of
lines printed to standard output, or abnormal termination with an
uncaught exception. -/
inductive Outcome where
  | ok : List String → Outcome
  | crash : PyError → Outcome
deriving DecidableEq

/-- Read a file's contents, `none` when no such file exists. -/
def FS.readFile (fs : FS) (p : String) : Option Bytes :=
  fs.files.lookup p

/-- Write a file, overwriting any prior content at that path
(the new entry shadows older ones in the association list). -/
def FS.writeFile (fs : FS) (p : String) (c : Bytes) : FS :=
  { fs with files := (p, c) :: fs.files }

/-- Create a single directory if it does not exist yet. -/
def FS.addDir (fs : FS) (d : String) : FS :=
  if fs.dirs.contains d then fs else { fs with dirs := d :: fs.dirs }

/-- `os.makedirs(d, exist_ok)` : create `d` and its missing parents.
With `exist_ok = false` an already-existing `d` raises FileExistsError;
with `exist_ok = true` it never fails. -/
def FS.makedirs (fs : FS) (d : String) (parents : List String)
    (exist_ok : Bool) : Except PyError FS :=
  if fs.dirs.contains d && !exist_ok then .error .fileExists
  else .ok ((parents.foldl FS.addDir fs).addDir d)

/-- `[json.loads(line) for line in file]`: each element of the input is
the result of `json.loads` on one line (`none` = parse failure); the
comprehension fails as a whole iff some line fails. -/
def loadLines : List (Option JValue) → Option (List JValue)
  | [] => some []
  | none :: _ => none
  | some v :: rest => (loadLines rest).map (fun tl => v :: tl)

/-- `json_data[-2]`: Python negative indexing; IndexError when the list
has fewer than 2 elements. -/
def index_neg2 (xs : List JValue) : Except PyError JValue :=
  if h : 2 ≤ xs.length then .ok (xs.get ⟨xs.length - 2, by omega⟩)
  else .error .indexError

/-- `v.get(k, dflt)`: Python `dict.get`; on a non-dict value the
attribute lookup `.get` itself raises AttributeError. For duplicate keys
`json.loads` keeps the last occurrence, hence the `reverse`. -/
def dictGet (v : JValue) (k : String) (dflt : JValue) : Except PyError JValue :=
  match v with
  | .obj kvs => .ok ((kvs.reverse.lookup k).getD dflt)
  | _ => .error .errorOfAttribute

/-- `v[0]` on the value held in `filenames` (or the default list):
first element of a list, first character of a string, IndexError when
empty, KeyError on a dict (integer key absent, as JSON keys are
strings), TypeError on null/bool/number. -/
def pyIndex0 : JValue → Except PyError JValue
  | .arr [] => .error .indexError
  | .arr (x :: _) => .ok x
  | .str s => if s == "" then .error .indexError else .ok (.str (s.take 1))
  | .obj _ => .error .keyError
  | _ => .error .typeError

/-- Python truthiness of the candidate path, as tested by
`if test_binary_path:`. -/
def JValue.truthy : JValue → Bool
  | .null => false
  | .bool b => b
  | .num n => n != 0
  | .str s => !(s == "")
  | .arr xs => !xs.isEmpty
  | .obj kvs => !kvs.isEmpty

/-- `target_directory = 'target/test'` -/
def target_directory : String := "target/test"

/-- `os.path.join(target_directory, 'latest_tests')` -/
def destPath : String := target_directory ++ "/" ++ "latest_tests"

/-- The diagnostic printed in the else-branch. -/
def diagMsg : String := "An error has occured. Wrong json format!"

/-- The whole script. `input = none` models a failure to open or read
`latest_test.json`; otherwise `input` carries the per-line results of
`json.loads`. The result is the final file system and the observable
outcome. `shutil.copy` raises FileNotFoundError when the source path
does not name an existing file, and TypeError when handed a non-string;
`os.makedirs` runs before the copy, so its effect persists even when
the copy then fails. -/
def runExtract (input : Option (List (Option JValue))) (fs : FS) :
    FS × Outcome :=
  match input with
  | none => (fs, .crash .openFailed)
  | some lines =>
    match loadLines lines with
    | none => (fs, .crash .parseError)
    | some json_data =>
      match index_neg2 json_data with
      | .error e => (fs, .crash e)
      | .ok record =>
        match dictGet record "filenames" (.arr [.null]) with
        | .error e => (fs, .crash e)
        | .ok fnames =>
          match pyIndex0 fnames with
          | .error e => (fs, .crash e)
          | .ok test_binary_path =>
            if test_binary_path.truthy then
              match fs.makedirs target_directory ["target"] true with
              | .error e => (fs, .crash e)
              | .ok fs1 =>
                match test_binary_path with
                | .str src =>
                  match fs1.readFile src with
                  | none => (fs1, .crash .fileNotFound)
                  | some content => (fs1.writeFile destPath content, .ok [])
                | _ => (fs1, .crash .typeError)
            else
              (fs, .ok [diagMsg])

/-! ## Basic lemmas about the file-system model -/

theorem FS.files_addDir (fs : FS) (d : String) :
    (fs.addDir d).files = fs.files := by
  unfold FS.addDir; split <;> rfl

theorem FS.readFile_addDir (fs : FS) (d p : String) :
    (fs.addDir d).readFile p = fs.readFile p := by
  unfold FS.readFile; rw [FS.files_addDir]

theorem FS.mem_dirs_addDir (fs : FS) (d : String) : d ∈ (fs.addDir d).dirs := by
  unfold FS.addDir
  split
  · next h => exact List.mem_of_elem_eq_true h
  · exact List.mem_cons_self _ _

theorem FS.dirs_mono_addDir (fs : FS) (d e : String) (h : e ∈ fs.dirs) :
    e ∈ (fs.addDir d).dirs := by
  unfold FS.addDir
  split
  · exact h
  · exact List.mem_cons_of_mem _ h

theorem FS.addDir_of_mem (fs : FS) (d : String) (h : d ∈ fs.dirs) :
    fs.addDir d = fs := by
  unfold FS.addDir
  rw [if_pos (List.elem_eq_true_of_mem h)]

theorem FS.readFile_writeFile (fs : FS) (p : String) (c : Bytes) :
    (fs.writeFile p c).readFile p = some c := by
  simp [FS.writeFile, FS.readFile, List.lookup]

/-- With `exist_ok = true`, `makedirs` always succeeds and its result is
the pure directory creation. -/
theorem FS.makedirs_exist_ok (fs : FS) (d : String) (parents : List String) :
    fs.makedirs d parents true = .ok ((parents.foldl FS.addDir fs).addDir d) := by
  unfold FS.makedirs
  simp

/-- The directory state after the `os.makedirs('target/test')` call. -/
def FS.mkTarget (fs : FS) : FS := (fs.addDir "target").addDir target_directory

theorem FS.readFile_mkTarget (fs : FS) (p : String) :
    fs.mkTarget.readFile p = fs.readFile p := by
  unfold FS.mkTarget
  rw [FS.readFile_addDir, FS.readFile_addDir]

/-- If a bad line occurs anywhere in the input, the comprehension as a
whole fails. -/
theorem loadLines_eq_none_of_mem (lines : List (Option JValue))
    (h : none ∈ lines) : loadLines lines = none := by
  induction lines with
  | nil => simp at h
  | cons x xs ih =>
    cases x with
    | none => rfl
    | some v =>
      have hx : none ∈ xs := by
        rcases List.mem_cons.mp h with h1 | h1
        · exact absurd h1 (by simp)
        · exact h1
      show ((loadLines xs).map (fun tl => v :: tl)) = none
      rw [ih hx]
      rfl

/-- `index_neg2` on a list of length ≥ 2 picks the element at
index `length − 2`. -/
theorem index_neg2_eq_get (xs : List JValue) (h : 2 ≤ xs.length) :
    index_neg2 xs = .ok (xs.get ⟨xs.length - 2, by omega⟩) := by
  unfold index_neg2
  rw [dif_pos h]

/-- Characterization of a successful run through the copy branch: when
the lines all parse, the second-to-last record is an object whose
`filenames` entry is a list headed by a non-empty string naming an
existing file, the run creates `target` and `target/test`, writes the
source's bytes to `target/test/latest_tests`, and exits normally
printing nothing. -/
theorem runExtract_copy (lines : List (Option JValue)) (data : List JValue)
    (kvs : List (String × JValue)) (src : String) (rest : List JValue)
    (content : Bytes) (fs : FS)
    (hp : loadLines lines = some data)
    (hrec : index_neg2 data = .ok (.obj kvs))
    (hget : kvs.reverse.lookup "filenames" = some (.arr (.str src :: rest)))
    (hsrc : src ≠ "")
    (hfile : fs.readFile src = some content) :
    runExtract (some lines) fs =
      (fs.mkTarget.writeFile destPath content, .ok []) := by
  have hread : fs.mkTarget.readFile src = some content := by
    rw [FS.readFile_mkTarget]; exact hfile
  simp only [runExtract, hp, hrec, dictGet, hget, Option.getD_some, pyIndex0,
    JValue.truthy, FS.makedirs_exist_ok]
  rw [beq_eq_false_iff_ne.mpr hsrc]
  simp only [Bool.not_false, if_true]
  show (match (fs.mkTarget).readFile src with
    | none => (fs.mkTarget, Outcome.crash .fileNotFound)
    | some c => (fs.mkTarget.writeFile destPath c, Outcome.ok [])) = _
  rw [hread]

theorem FS.dirs_writeFile (fs : FS) (p : String) (c : Bytes) :
    (fs.writeFile p c).dirs = fs.dirs := rfl

/-- The empty file system. -/
def fsEmpty : FS := ⟨[], []⟩

/-! ## Claims -/

/-- Claim C1: for an input of at least 2 well-formed JSON lines whose
second-to-last record is an object holding a `filenames` list headed by
a non-empty string that names an existing readable file, the run leaves
`target/test/latest_tests` in existence with byte-identical content to
the source, the directory `target/test` exists, and the script exits
normally printing nothing. -/
theorem c1_copy_success (lines : List (Option JValue)) (data : List JValue)
    (kvs : List (String × JValue)) (src : String) (rest : List JValue)
    (content : Bytes) (fs : FS)
    (hp : loadLines lines = some data)
    (hrec : index_neg2 data = .ok (.obj kvs))
    (hget : kvs.reverse.lookup "filenames" = some (.arr (.str src :: rest)))
    (hsrc : src ≠ "")
    (hfile : fs.readFile src = some content) :
    ((runExtract (some lines) fs).1).readFile destPath = some content ∧
    target_directory ∈ ((runExtract (some lines) fs).1).dirs ∧
    (runExtract (some lines) fs).2 = .ok [] := by
  rw [runExtract_copy lines data kvs src rest content fs hp hrec hget hsrc hfile]
  refine ⟨FS.readFile_writeFile _ _ _, ?_, rfl⟩
  show target_directory ∈ (FS.mkTarget fs |>.writeFile destPath content).dirs
  rw [FS.dirs_writeFile]
  exact FS.mem_dirs_addDir _ _

/-- Witness for C1, on the concrete scenario of the claim: two lines,
the first (= second-to-last) holding `filenames` = [/tmp/a], the second
holding [/tmp/b, /tmp/c]; the file copied is /tmp/a. -/
theorem c1_copy_success_witness :
    ((runExtract (some
        [some (.obj [("filenames", .arr [.str "/tmp/a"])]),
         some (.obj [("filenames", .arr [.str "/tmp/b", .str "/tmp/c"])])])
        ⟨[], [("/tmp/a", [10, 20]), ("/tmp/b", [30]), ("/tmp/c", [40])]⟩).1).readFile
          destPath = some [10, 20] ∧
    target_directory ∈ ((runExtract (some
        [some (.obj [("filenames", .arr [.str "/tmp/a"])]),
         some (.obj [("filenames", .arr [.str "/tmp/b", .str "/tmp/c"])])])
        ⟨[], [("/tmp/a", [10, 20]), ("/tmp/b", [30]), ("/tmp/c", [40])]⟩).1).dirs ∧
    (runExtract (some
        [some (.obj [("filenames", .arr [.str "/tmp/a"])]),
         some (.obj [("filenames", .arr [.str "/tmp/b", .str "/tmp/c"])])])
        ⟨[], [("/tmp/a", [10, 20]), ("/tmp/b", [30]), ("/tmp/c", [40])]⟩).2 = .ok [] :=
  c1_copy_success _
    [.obj [("filenames", .arr [.str "/tmp/a"])],
     .obj [("filenames", .arr [.str "/tmp/b", .str "/tmp/c"])]]
    [("filenames", .arr [.str "/tmp/a"])] "/tmp/a" [] [10, 20] _
    rfl rfl rfl (by decide) rfl

/-- Input whose second-to-last record holds `filenames` = JSON null. -/
def nullRecLines : List (Option JValue) :=
  [some (.obj [("filenames", JValue.null)]),
   some (.obj [("filenames", .arr [.str "/tmp/b"])])]

/-- Input whose second-to-last record holds `filenames` = empty list. -/
def emptyRecLines : List (Option JValue) :=
  [some (.obj [("filenames", JValue.arr [])]),
   some (.obj [("filenames", .arr [.str "/tmp/b"])])]

/-- Counterexample to Claim C2 as stated: with `filenames` = null the
script does not print the diagnostic; `None[0]` raises TypeError and the
run terminates abnormally (and with `filenames` = [] it raises
IndexError). -/
theorem c2_counterexample :
    runExtract (some nullRecLines) fsEmpty = (fsEmpty, .crash .typeError) ∧
    runExtract (some emptyRecLines) fsEmpty = (fsEmpty, .crash .indexError) ∧
    Outcome.crash .typeError ≠ .ok [diagMsg] ∧
    Outcome.crash .indexError ≠ .ok [diagMsg] := by
  refine ⟨rfl, rfl, ?_, ?_⟩ <;> intro h <;> exact Outcome.noConfusion h

/-- Claim C2 (amended): for an input of at least 2 well-formed JSON
lines whose second-to-last record has `filenames` equal to JSON null or
to an empty sequence, no file is written or modified under `target/test`
(the file system is unchanged), but the diagnostic is NOT printed: the
script terminates abnormally, with TypeError on null and IndexError on
the empty sequence. -/
theorem c2_amended_crash (lines : List (Option JValue)) (data : List JValue)
    (kvs : List (String × JValue)) (fs : FS)
    (hp : loadLines lines = some data)
    (hrec : index_neg2 data = .ok (.obj kvs))
    (hget : kvs.reverse.lookup "filenames" = some JValue.null ∨
            kvs.reverse.lookup "filenames" = some (.arr [])) :
    (runExtract (some lines) fs).1 = fs ∧
    ((runExtract (some lines) fs).2 = .crash .typeError ∨
     (runExtract (some lines) fs).2 = .crash .indexError) ∧
    (runExtract (some lines) fs).2 ≠ .ok [diagMsg] := by
  rcases hget with hget | hget <;>
    simp [runExtract, hp, hrec, dictGet, hget, pyIndex0]

/-- Witness for the amended C2, at the concrete null input. -/
theorem c2_amended_crash_witness :
    (runExtract (some nullRecLines) fsEmpty).1 = fsEmpty ∧
    ((runExtract (some nullRecLines) fsEmpty).2 = .crash .typeError ∨
     (runExtract (some nullRecLines) fsEmpty).2 = .crash .indexError) ∧
    (runExtract (some nullRecLines) fsEmpty).2 ≠ .ok [diagMsg] :=
  c2_amended_crash nullRecLines
    [.obj [("filenames", JValue.null)],
     .obj [("filenames", .arr [.str "/tmp/b"])]]
    [("filenames", JValue.null)] fsEmpty rfl rfl (Or.inl rfl)

/-- Claim C3: for an input of at least 2 well-formed JSON lines whose
second-to-last record is an object lacking the `filenames` key entirely,
the script performs no file operation, prints exactly the diagnostic
"An error has occured. Wrong json format!", and exits normally. -/
theorem c3_absent_key_diag (lines : List (Option JValue)) (data : List JValue)
    (kvs : List (String × JValue)) (fs : FS)
    (hp : loadLines lines = some data)
    (hrec : index_neg2 data = .ok (.obj kvs))
    (habs : kvs.reverse.lookup "filenames" = none) :
    runExtract (some lines) fs = (fs, .ok [diagMsg]) := by
  simp [runExtract, hp, hrec, dictGet, habs, pyIndex0, JValue.truthy]

/-- Witness for C3: two lines, the second-to-last an object without the
`filenames` key. -/
theorem c3_absent_key_diag_witness :
    runExtract (some [some (.obj [("other", .num 1)]), some (.obj [])])
      fsEmpty = (fsEmpty, .ok [diagMsg]) :=
  c3_absent_key_diag _ [.obj [("other", .num 1)], .obj []]
    [("other", .num 1)] fsEmpty rfl rfl rfl

/-- Claim C4: for an input of fewer than 2 well-formed JSON lines, the
script terminates abnormally with an uncaught IndexError, the file
system is unchanged (no destination file produced) and nothing is
printed. -/
theorem c4_short_input_crash (lines : List (Option JValue))
    (data : List JValue) (fs : FS)
    (hp : loadLines lines = some data) (hlen : data.length < 2) :
    runExtract (some lines) fs = (fs, .crash .indexError) := by
  have h2 : index_neg2 data = .error .indexError := by
    unfold index_neg2
    rw [dif_neg (by omega)]
  simp [runExtract, hp, h2]

/-- Witness for C4: an input of exactly 1 well-formed line. -/
theorem c4_short_input_crash_witness :
    runExtract (some [some (.obj [("filenames", .arr [.str "/tmp/a"])])])
      fsEmpty = (fsEmpty, .crash .indexError) :=
  c4_short_input_crash _ [.obj [("filenames", .arr [.str "/tmp/a"])]]
    fsEmpty rfl (by decide)

/-- Claim C5: if any input line fails to parse as JSON, the whole run
terminates abnormally with an uncaught parse fault (every line is
parsed eagerly before selection), the file system is unchanged and
nothing is printed — in particular when the bad line is the
second-to-last one. -/
theorem c5_parse_fault (lines : List (Option JValue)) (fs : FS)
    (h : none ∈ lines) :
    runExtract (some lines) fs = (fs, .crash .parseError) := by
  simp [runExtract, loadLines_eq_none_of_mem lines h]

/-- Witness for C5: a 2-line input whose second-to-last (first) line is
not valid JSON. -/
theorem c5_parse_fault_witness :
    runExtract (some [none, some (.obj [("filenames", .arr [.str "/tmp/a"])])])
      fsEmpty = (fsEmpty, .crash .parseError) :=
  c5_parse_fault _ fsEmpty (List.mem_cons_self _ _)

/-- Claim C6: two inputs of valid JSON lines with the same number of
records and identical second-to-last records produce identical
observable behaviour (same final file system, same outcome): records
other than the second-to-last are parsed but do not influence the
result. -/
theorem c6_only_second_to_last (lines1 lines2 : List (Option JValue))
    (data1 data2 : List JValue) (fs : FS)
    (hp1 : loadLines lines1 = some data1)
    (hp2 : loadLines lines2 = some data2)
    (hlen : data1.length = data2.length)
    (h2 : 2 ≤ data1.length)
    (hrec : data1.get ⟨data1.length - 2, by omega⟩ =
            data2.get ⟨data2.length - 2, by omega⟩) :
    runExtract (some lines1) fs = runExtract (some lines2) fs := by
  have e1 := index_neg2_eq_get data1 h2
  have e2 := index_neg2_eq_get data2 (by omega)
  have he : index_neg2 data1 = index_neg2 data2 := by
    rw [e1, e2, hrec]
  simp only [runExtract, hp1, hp2, he]

/-- Witness for C6: two 3-line inputs agreeing only on the middle
(second-to-last) record. -/
theorem c6_only_second_to_last_witness :
    runExtract (some [some (.obj [("a", .num 1)]),
                      some (.obj [("filenames", JValue.arr [])]),
                      some (.obj [("b", .num 2)])]) fsEmpty =
    runExtract (some [some (.obj [("c", .num 3)]),
                      some (.obj [("filenames", JValue.arr [])]),
                      some (.obj [])]) fsEmpty :=
  c6_only_second_to_last _ _
    [.obj [("a", .num 1)], .obj [("filenames", JValue.arr [])], .obj [("b", .num 2)]]
    [.obj [("c", .num 3)], .obj [("filenames", JValue.arr [])], .obj []]
    fsEmpty rfl rfl rfl (by decide) rfl

/-- Claim C7: running the script twice, each run on a valid input that
selects an existing source file, overwrites `target/test/latest_tests`
each time: after the first run its content equals the first source, and
after the second run it equals the source selected by the latest run,
regardless of what the first run left at the destination. -/
theorem c7_overwrite_latest (lines1 lines2 : List (Option JValue))
    (data1 data2 : List JValue)
    (kvs1 kvs2 : List (String × JValue)) (src1 src2 : String)
    (rest1 rest2 : List JValue) (ca cb : Bytes) (fs : FS)
    (hp1 : loadLines lines1 = some data1)
    (hrec1 : index_neg2 data1 = .ok (.obj kvs1))
    (hget1 : kvs1.reverse.lookup "filenames" = some (.arr (.str src1 :: rest1)))
    (hsrc1 : src1 ≠ "")
    (hfile1 : fs.readFile src1 = some ca)
    (hp2 : loadLines lines2 = some data2)
    (hrec2 : index_neg2 data2 = .ok (.obj kvs2))
    (hget2 : kvs2.reverse.lookup "filenames" = some (.arr (.str src2 :: rest2)))
    (hsrc2 : src2 ≠ "")
    (hfile2 : ((runExtract (some lines1) fs).1).readFile src2 = some cb) :
    ((runExtract (some lines1) fs).1).readFile destPath = some ca ∧
    ((runExtract (some lines2)
        ((runExtract (some lines1) fs).1)).1).readFile destPath = some cb := by
  constructor
  · rw [runExtract_copy lines1 data1 kvs1 src1 rest1 ca fs hp1 hrec1 hget1 hsrc1 hfile1]
    exact FS.readFile_writeFile _ _ _
  · rw [runExtract_copy lines2 data2 kvs2 src2 rest2 cb _ hp2 hrec2 hget2 hsrc2 hfile2]
    exact FS.readFile_writeFile _ _ _

/-- Witness for C7: first run copies /tmp/a, second run copies /tmp/b;
the destination ends up with the bytes of /tmp/b. -/
theorem c7_overwrite_latest_witness :
    ((runExtract (some [some (.obj [("filenames", .arr [.str "/tmp/a"])]),
                        some (.obj [])])
        ⟨[], [("/tmp/a", [1]), ("/tmp/b", [2])]⟩).1).readFile destPath = some [1] ∧
    ((runExtract (some [some (.obj [("filenames", .arr [.str "/tmp/b"])]),
                        some (.obj [])])
        ((runExtract (some [some (.obj [("filenames", .arr [.str "/tmp/a"])]),
                            some (.obj [])])
          ⟨[], [("/tmp/a", [1]), ("/tmp/b", [2])]⟩).1)).1).readFile destPath
      = some [2] :=
  c7_overwrite_latest _ _
    [.obj [("filenames", .arr [.str "/tmp/a"])], .obj []]
    [.obj [("filenames", .arr [.str "/tmp/b"])], .obj []]
    [("filenames", .arr [.str "/tmp/a"])]
    [("filenames", .arr [.str "/tmp/b"])]
    "/tmp/a" "/tmp/b" [] [] [1] [2] _
    rfl rfl rfl (by decide) rfl
    rfl rfl rfl (by decide) (by decide)

/-- Claim C8: creating the destination directory `target/test` with
missing parents and `exist_ok` is idempotent: from any state it
succeeds (never raises), afterwards `target/test` and `target` exist,
repeating it succeeds and changes nothing, and no file content is
touched. -/
theorem c8_makedirs_idempotent (fs : FS) :
    ∃ fs1, fs.makedirs target_directory ["target"] true = .ok fs1 ∧
      target_directory ∈ fs1.dirs ∧ "target" ∈ fs1.dirs ∧
      fs1.makedirs target_directory ["target"] true = .ok fs1 ∧
      fs1.files = fs.files := by
  refine ⟨fs.mkTarget, ?_, ?_, ?_, ?_, ?_⟩
  · rw [FS.makedirs_exist_ok]
    rfl
  · exact FS.mem_dirs_addDir _ _
  · exact FS.dirs_mono_addDir _ _ _ (FS.mem_dirs_addDir _ _)
  · rw [FS.makedirs_exist_ok]
    have hmem1 : "target" ∈ fs.mkTarget.dirs :=
      FS.dirs_mono_addDir _ _ _ (FS.mem_dirs_addDir _ _)
    have h1 : fs.mkTarget.addDir "target" = fs.mkTarget :=
      FS.addDir_of_mem _ _ hmem1
    have hmem2 : target_directory ∈ fs.mkTarget.dirs := FS.mem_dirs_addDir _ _
    have h2 : fs.mkTarget.addDir target_directory = fs.mkTarget :=
      FS.addDir_of_mem _ _ hmem2
    show Except.ok ((fs.mkTarget.addDir "target").addDir target_directory) = _
    rw [h1, h2]
  · show ((fs.addDir "target").addDir target_directory).files = fs.files
    rw [FS.files_addDir, FS.files_addDir]

/-- Claim C9: when the `filenames` list is present and headed by the
empty string, the candidate is present but falsy, so the script takes
the diagnostic branch: it prints the error message and performs no
directory creation or copy. -/
theorem c9_empty_string_diag (lines : List (Option JValue))
    (data : List JValue) (kvs : List (String × JValue))
    (rest : List JValue) (fs : FS)
    (hp : loadLines lines = some data)
    (hrec : index_neg2 data = .ok (.obj kvs))
    (hget : kvs.reverse.lookup "filenames" = some (.arr (.str "" :: rest))) :
    runExtract (some lines) fs = (fs, .ok [diagMsg]) := by
  simp [runExtract, hp, hrec, dictGet, hget, pyIndex0, JValue.truthy]

/-- Witness for C9: second-to-last record has `filenames` = [""] . -/
theorem c9_empty_string_diag_witness :
    runExtract (some [some (.obj [("filenames", .arr [.str ""])]),
                      some (.obj [])]) fsEmpty = (fsEmpty, .ok [diagMsg]) :=
  c9_empty_string_diag _
    [.obj [("filenames", .arr [.str ""])], .obj []]
    [("filenames", .arr [.str ""])] [] fsEmpty rfl rfl rfl

/-- Claim C10: when opening or reading `latest_test.json` fails, the
script faults before any file-system modification: the final state
equals the initial one (no directory created, no file written) and the
outcome is an abnormal termination. -/
theorem c10_open_failure (fs : FS) :
    runExtract none fs = (fs, .crash .openFailed) := rfl

end Extract
